import Mathlib

set_option autoImplicit false

namespace EcommerceAgent

/-! Shallow embedding of the query-understanding frontend of the ecommerce AI agent.
The dispatch logic lives in src/frontend/src/components/InputArea.js, function
ChatInterface.handleSubmit, together with the helper formatGeminiResponse.
String operations are modelled character by character over List Char so that every
definition is executable and kernel-decidable. -/

/-- Lowercase a string character by character, as String.prototype.toLowerCase acts on ASCII input. -/
def lowerString (s : String) : String := String.mk (s.data.map Char.toLower)

/-- Test whether the first list is an initial segment of the second, as String.prototype.startsWith. -/
def startsWithL : List Char → List Char → Bool
  | [], _ => true
  | _ :: _, [] => false
  | p :: ps, c :: cs => p == c && startsWithL ps cs

/-- Test whether the first list occurs contiguously inside the second, as String.prototype.includes. -/
def containsSub (needle : List Char) : List Char → Bool
  | [] => startsWithL needle []
  | c :: rest => startsWithL needle (c :: rest) || containsSub needle rest

/-- Test whether the string contains any of the given keywords as a substring. -/
def containsAny (keys : List String) (s : String) : Bool :=
  keys.any fun k => containsSub k.data s.data

/-- Whitespace characters removed by String.prototype.trim on the inputs this interface sees. -/
def isJsSpace (c : Char) : Bool := c == ' ' || c == '\t' || c == '\n' || c == '\r'

/-- Model of String.prototype.trim: drop whitespace from both ends. -/
def trimText (s : String) : String :=
  String.mk (((s.data.dropWhile isJsSpace).reverse.dropWhile isJsSpace).reverse)

/-- Intents distinguished by the dispatch in ChatInterface.handleSubmit: the image search
branch, the text recommendation branch, and the general conversation branch. -/
inductive Intent where
  | image_description
  | text_recommendation
  | general_conversation
deriving DecidableEq

/-- Keywords of the image search branch (InputArea.js lines 185 to 191). -/
def imageKeywords : List String := ["image", "picture", "photo", "looks like"]

/-- Keywords of the text recommendation branch (InputArea.js lines 205 to 213). -/
def recommendKeywords : List String := ["recommend", "search", "find", "show me", "looking for"]

/-- First rule of the dispatch: the lowered query contains an image keyword or starts with "a ". -/
def imageRule (ql : String) : Bool :=
  containsAny imageKeywords ql || startsWithL "a ".data ql.data

/-- Second rule of the dispatch: the lowered query contains a recommendation keyword. -/
def textRecRule (ql : String) : Bool := containsAny recommendKeywords ql

/-- Intent classification as performed by the if chain of handleSubmit over the lowered query. -/
def classify (query : String) : Intent :=
  let ql := lowerString query
  if imageRule ql then Intent.image_description
  else if textRecRule ql then Intent.text_recommendation
  else Intent.general_conversation

/-- Backend endpoints handleSubmit can post a query to. -/
inductive Route where
  | agent
  | image
  | text
  | chat
deriving DecidableEq

/-- Endpoint chosen for each classified intent when agent mode is off. -/
def routeOfIntent : Intent → Route
  | Intent.image_description => Route.image
  | Intent.text_recommendation => Route.text
  | Intent.general_conversation => Route.chat

/-- Endpoint selection of handleSubmit: the agent mode flag is tested before any
intent rule (InputArea.js line 163), so agent mode bypasses classification. -/
def route (agentMode : Bool) (query : String) : Route :=
  if agentMode then Route.agent else routeOfIntent (classify query)

/-- Ordered rule list of the classifier, each rule a predicate over the raw query
paired with the intent it assigns. -/
def intentRules : List ((String → Bool) × Intent) :=
  [(fun q => imageRule (lowerString q), Intent.image_description),
   (fun q => textRecRule (lowerString q), Intent.text_recommendation)]

/-- First-match evaluation of an ordered rule list with default intent d. -/
def chainEval (d : Intent) : List ((String → Bool) × Intent) → String → Intent
  | [], _ => d
  | (p, i) :: rs, q => if p q then i else chainEval d rs q

/-- Relational first-match semantics of an ordered rule list: a rule fires only when
every earlier rule rejected the query; the default intent d applies when all rules reject. -/
inductive ChainAssigns (d : Intent) : List ((String → Bool) × Intent) → String → Intent → Prop where
  | nil (q : String) : ChainAssigns d [] q d
  | head {p : String → Bool} {i : Intent} {rs : List ((String → Bool) × Intent)} {q : String} :
      p q = true → ChainAssigns d ((p, i) :: rs) q i
  | tail {p : String → Bool} {i j : Intent} {rs : List ((String → Bool) × Intent)} {q : String} :
      p q = false → ChainAssigns d rs q j → ChainAssigns d ((p, i) :: rs) q j

/-- Characters of the line break replacement string. -/
def brChars : List Char := "<br/>".data

/-- Characters of the double line break replacement string. -/
def brbrChars : List Char := "<br/><br/>".data

/-- Replacement of a leading star and space by a bullet, applied to one line;
this models one match of the anchored multiline regex in formatGeminiResponse. -/
def bulletLine : List Char → List Char
  | '*' :: ' ' :: rest => '•' :: ' ' :: rest
  | l => l

/-- Split a character list at every newline, keeping empty lines. -/
def splitNL : List Char → List (List Char)
  | [] => [[]]
  | c :: cs =>
    if c == '\n' then [] :: splitNL cs
    else
      match splitNL cs with
      | [] => [[c]]
      | l :: ls => (c :: l) :: ls

/-- Rejoin lines with newlines, inverse of splitNL. -/
def joinNL : List (List Char) → List Char
  | [] => []
  | [l] => l
  | l :: ls => l ++ '\n' :: joinNL ls

/-- Left-to-right global replacement of each double newline, as the third replace call. -/
def replaceDoubleNL : List Char → List Char
  | '\n' :: '\n' :: rest => brbrChars ++ replaceDoubleNL rest
  | c :: rest => c :: replaceDoubleNL rest
  | [] => []

/-- Left-to-right global replacement of each remaining newline, as the fourth replace call. -/
def replaceSingleNL : List Char → List Char
  | '\n' :: rest => brChars ++ replaceSingleNL rest
  | c :: rest => c :: replaceSingleNL rest
  | [] => []

/-- Model of formatGeminiResponse (InputArea.js lines 101 to 113). A missing argument
(null or undefined) is modelled as none; the falsy check also catches the empty string.
The four replace calls run in source order: bullets per line, star removal,
double newline to double break, newline to break. -/
def formatGeminiResponse (text : Option String) : String :=
  match text with
  | none => ""
  | some s =>
    if s == "" then ""
    else
      let step1 := joinNL ((splitNL s.data).map bulletLine)
      let step2 := step1.filter fun c => c != '*'
      let step3 := replaceDoubleNL step2
      String.mk (replaceSingleNL step3)

/-- One chat transcript entry: its sender type and its text. -/
structure ChatMessage where
  mtype : String
  text : String
deriving DecidableEq

/-- Component state of ChatInterface read and written by handleSubmit. -/
structure ChatState where
  query : String
  messages : List ChatMessage
  products : List Nat
  isLoading : Bool
  showProducts : Bool
  lastFeature : Option String
deriving DecidableEq

/-- Outcome of the awaited backend request: a resolved response carrying a reply
string and a product list, or a rejected promise. -/
inductive BackendOutcome where
  | ok (response : String) (products : List Nat)
  | failure
deriving DecidableEq

/-- The user message appended before the request is issued. -/
def userMessage (q : String) : ChatMessage := { mtype := "user", text := q }

/-- Text of the apology bot message of the catch block. -/
def apologyText : String :=
  "I\x27m sorry, I\x27m having trouble connecting to my services right now. Please try again in a moment."

/-- The apology bot message appended by the catch block. -/
def apologyMessage : ChatMessage := { mtype := "bot", text := apologyText }

/-- Bot reply composed in the agent mode branch. -/
def agentBotText (resp : String) (prods : List Nat) : String :=
  "<b>🤖 Agent Mode:</b> " ++ formatGeminiResponse (some resp) ++
    (if !prods.isEmpty then
      "<br/><br/>🛒 <b>Product Recommendations:</b> I found <b>" ++ toString prods.length ++
        "</b> product(s) for you."
    else
      "<br/><br/>🛒 <b>Product Recommendations:</b> Sorry, I couldn\x27t find any products matching your request.")

/-- Bot reply composed in the image search branch. -/
def imageBotText (prods : List Nat) : String :=
  if !prods.isEmpty then
    "🖼️ <b>Image-Based Product Search:</b> I found <b>" ++ toString prods.length ++
      "</b> product(s) matching your description."
  else
    "🖼️ <b>Image-Based Product Search:</b> Sorry, I couldn\x27t find any products matching your description."

/-- Bot reply composed in the text recommendation branch. -/
def textBotText (prods : List Nat) : String :=
  if !prods.isEmpty then
    "📝 <b>Text-Based Product Recommendation:</b> I found <b>" ++ toString prods.length ++
      "</b> product(s) that match your request."
  else
    "📝 <b>Text-Based Product Recommendation:</b> Sorry, I couldn\x27t find any products matching your request."

/-- Guard at the top of handleSubmit (line 148): an all-whitespace query, a request in
flight, or a disconnected API aborts the submission before any request. -/
def submitGuardFails (st : ChatState) (apiConnected : Bool) : Bool :=
  trimText st.query == "" || st.isLoading || !apiConnected

/-- Endpoint a submission will post to, or none when the guard aborts it. The send button
(InputArea.js line 49) is likewise disabled whenever the trimmed query is empty. -/
def submitRoute (st : ChatState) (agentMode : Bool) (apiConnected : Bool) : Option Route :=
  if submitGuardFails st apiConnected then none
  else some (route agentMode st.query)

/-- Disabled attribute of the send button (InputArea.js lines 47 to 50). -/
def sendButtonDisabled (isLoading : Bool) (apiConnected : Bool) (query : String) : Bool :=
  isLoading || !apiConnected || trimText query == ""

/-- State transition of one run of handleSubmit, given the outcome of the backend call.
The user message is appended and the query cleared before the request; the catch block
appends the apology message and touches no other field; the finally block clears isLoading. -/
def handleSubmit (st : ChatState) (agentMode : Bool) (apiConnected : Bool)
    (o : BackendOutcome) : ChatState :=
  if submitGuardFails st apiConnected then st
  else
    let sent : ChatState :=
      { st with
        messages := st.messages ++ [userMessage st.query],
        query := "",
        isLoading := true }
    let responded : ChatState :=
      match o with
      | BackendOutcome.failure =>
        { sent with messages := sent.messages ++ [apologyMessage] }
      | BackendOutcome.ok resp prods =>
        match route agentMode st.query with
        | Route.agent =>
          { sent with
            products := prods,
            lastFeature := some "agent",
            showProducts := !prods.isEmpty,
            messages := sent.messages ++ [{ mtype := "bot", text := agentBotText resp prods }] }
        | Route.image =>
          { sent with
            products := prods,
            lastFeature := some "image",
            showProducts := true,
            messages := sent.messages ++ [{ mtype := "bot", text := imageBotText prods }] }
        | Route.text =>
          { sent with
            products := prods,
            lastFeature := some "text",
            showProducts := true,
            messages := sent.messages ++ [{ mtype := "bot", text := textBotText prods }] }
        | Route.chat =>
          { sent with
            products := prods,
            lastFeature := some "chat",
            showProducts := !prods.isEmpty,
            messages := sent.messages ++ [{ mtype := "bot", text := resp }] }
    { responded with isLoading := false }

/-! Spec-modelled backend. The repository ships only the frontend under src/; the backend
query-understanding and product-matching engine the specification describes (Normalizer,
CatalogIndex, Matcher/Ranker, QueryRouter; spec sections 4.1 to 4.5) is not under src/.
The following definitions are modelled from the spec. Exact rational arithmetic replaces
floating point: the inverse document frequency is the surrogate (N + 1 - df) / df, which is
near zero for terms appearing in every product and large for rare terms, and cosine
similarity is carried as its square, exactly computable without square roots and inducing
the same order on products because every term weight is non-negative. -/

/-- Exact non-negative fraction used for term weights and scores: the backend works in
floating point, the model works in exact arithmetic, and every quantity involved is
non-negative. Fractions are not kept in reduced form; comparisons cross multiply. Every
fraction the model constructs has a positive denominator. -/
structure Frac where
  num : Nat
  den : Nat
deriving DecidableEq

/-- Fraction addition without normalization. -/
def Frac.add (a b : Frac) : Frac := { num := a.num * b.den + b.num * a.den, den := a.den * b.den }

/-- Fraction multiplication without normalization. -/
def Frac.mul (a b : Frac) : Frac := { num := a.num * b.num, den := a.den * b.den }

/-- Order comparison by cross multiplication. -/
def Frac.le (a b : Frac) : Bool := decide (a.num * b.den ≤ b.num * a.den)

/-- Strict order comparison by cross multiplication. -/
def Frac.lt (a b : Frac) : Bool := decide (a.num * b.den < b.num * a.den)

/-- Value equality by cross multiplication. -/
def Frac.eqv (a b : Frac) : Bool := decide (a.num * b.den = b.num * a.den)

/-- The zero fraction. -/
def Frac.zero : Frac := { num := 0, den := 1 }

/-- Embedding of a natural number. -/
def Frac.ofNat (n : Nat) : Frac := { num := n, den := 1 }

/-- Sum of a list of fractions. -/
def Frac.sumL (l : List Frac) : Frac := l.foldr Frac.add Frac.zero

/-- Modelled from the spec: the fixed stopword set of the missing backend Normalizer. -/
def stopwords : List String :=
  ["a", "an", "the", "is", "are", "was", "be", "for", "of", "and", "or", "to",
   "in", "on", "with", "me", "my", "i", "you", "it", "this", "that"]

/-- Noise stripping: letters are kept, punctuation and digits become separators. -/
def stripNoise (c : Char) : Char := if c.isAlpha then c else ' '

/-- Modelled from the spec: a minimal stemmer for the missing backend Normalizer,
reducing a plural token to its stem. -/
def stemToken (t : String) : String :=
  match t.data.reverse with
  | 's' :: rest => if 3 ≤ rest.length then String.mk rest.reverse else t
  | _ => t

/-- Split a character list into maximal runs of non-space characters. -/
def wordsAux : List Char → List Char → List String
  | [], acc => if acc.isEmpty then [] else [String.mk acc.reverse]
  | c :: cs, acc =>
    if c == ' ' then
      if acc.isEmpty then wordsAux cs [] else String.mk acc.reverse :: wordsAux cs []
    else wordsAux cs (c :: acc)

/-- Modelled from the spec: the missing backend Normalizer.normalize - lowercase, strip
punctuation and digits, split on whitespace, drop stopwords, stem. Pure, and an
all-whitespace input yields the empty token sequence. -/
def normalize (text : String) : List String :=
  ((wordsAux ((lowerString text).data.map stripNoise) []).filter
    (fun t => !(stopwords.contains t))).map stemToken

/-- Product record of the data model (spec section 3). -/
structure Product where
  id : Nat
  name : String
  description : String
  category : String
  brand : String
  price : Frac
  image_url : String
  tags : List String
deriving DecidableEq

/-- Concatenated text fields indexed for a product: name, description, tags, category, brand. -/
def productText (p : Product) : String :=
  p.name ++ " " ++ p.description ++ " " ++ String.intercalate " " p.tags ++ " " ++
    p.category ++ " " ++ p.brand

/-- Normalized tokens of a product. -/
def productTokens (p : Product) : List String := normalize (productText p)

/-- Modelled from the spec: the vocabulary of the missing CatalogIndex, the union of
tokens across all products. -/
def vocabulary (ps : List Product) : List String := ((ps.map productTokens).flatten).dedup

/-- Number of occurrences of a term in a token list (term frequency). -/
def countTok (toks : List String) (t : String) : Nat := (toks.filter (fun u => u == t)).length

/-- Document frequency of a term: the number of products whose tokens contain it. -/
def docFreq (ps : List Product) (t : String) : Nat :=
  (ps.filter (fun p => (productTokens p).contains t)).length

/-- Modelled from the spec: inverse document frequency of the missing CatalogIndex, as the
exact surrogate (N + 1 - df) / df; zero for terms outside the vocabulary. -/
def idf (ps : List Product) (t : String) : Frac :=
  if docFreq ps t = 0 then Frac.zero
  else { num := ps.length + 1 - docFreq ps t, den := docFreq ps t }

/-- Term weight of a term for a product: term frequency times inverse document frequency. -/
def weight (ps : List Product) (p : Product) (t : String) : Frac :=
  Frac.mul (Frac.ofNat (countTok (productTokens p) t)) (idf ps t)

/-- Query-side weight of a term; terms absent from the vocabulary contribute zero. -/
def queryWeight (ps : List Product) (toks : List String) (t : String) : Frac :=
  Frac.mul (Frac.ofNat (countTok toks t)) (idf ps t)

/-- Dot product of the query and product weight vectors over the vocabulary. -/
def dotQP (ps : List Product) (toks : List String) (p : Product) : Frac :=
  Frac.sumL ((vocabulary ps).map (fun t => Frac.mul (queryWeight ps toks t) (weight ps p t)))

/-- Squared norm of the query weight vector. -/
def queryNormSq (ps : List Product) (toks : List String) : Frac :=
  Frac.sumL ((vocabulary ps).map (fun t => Frac.mul (queryWeight ps toks t) (queryWeight ps toks t)))

/-- Squared norm of the weight vector of a product. -/
def prodNormSq (ps : List Product) (p : Product) : Frac :=
  Frac.sumL ((vocabulary ps).map (fun t => Frac.mul (weight ps p t) (weight ps p t)))

/-- Squared cosine similarity between query and product; all weights are non-negative, so
ordering by this value agrees with ordering by cosine similarity. -/
def cosSq (ps : List Product) (toks : List String) (p : Product) : Frac :=
  if (queryNormSq ps toks).num = 0 ∨ (prodNormSq ps p).num = 0 then Frac.zero
  else
    let d := Frac.mul (dotQP ps toks p) (dotQP ps toks p)
    let n := Frac.mul (queryNormSq ps toks) (prodNormSq ps p)
    { num := d.num * n.den, den := d.den * n.num }

/-- Stage of the fallback chain that produced a match (spec section 3). -/
inductive MatchStage where
  | semantic
  | keyword
  | category
  | default
deriving DecidableEq

/-- MatchResult record of the data model (spec section 3). -/
structure MatchResult where
  product : Product
  score : Frac
  matchedVia : MatchStage
deriving DecidableEq

/-- Insert into a list ordered by the given strict-before test. -/
def insertRanked {α : Type} (before : α → α → Bool) (a : α) : List α → List α
  | [] => [a]
  | b :: bs => if before a b then a :: b :: bs else b :: insertRanked before a bs

/-- Insertion sort by the given before test; executable and length preserving. -/
def sortRanked {α : Type} (before : α → α → Bool) (l : List α) : List α :=
  l.foldr (insertRanked before) []

/-- Ranking order of results: descending score, ties by ascending product id (spec section 3). -/
def rankBefore (a b : MatchResult) : Bool :=
  Frac.lt b.score a.score || (Frac.eqv a.score b.score && decide (a.product.id ≤ b.product.id))

/-- Catalog order by ascending product id, used for the default stage sample. -/
def idBefore (a b : Product) : Bool := decide (a.id ≤ b.id)

/-- Modelled from the spec: the semantic similarity threshold of the missing Matcher
(design default 0.05). -/
def tauSemantic : Frac := { num := 1, den := 20 }

/-- Modelled from the spec: semantic stage of the missing Matcher - keep every product
whose cosine similarity reaches the threshold (compared through squares), sorted by
descending similarity. -/
def semanticStage (ps : List Product) (toks : List String) : List MatchResult :=
  sortRanked rankBefore
    ((ps.filter fun p => Frac.le (Frac.mul tauSemantic tauSemantic) (cosSq ps toks p)).map
      fun p => { product := p, score := cosSq ps toks p, matchedVia := MatchStage.semantic })

/-- Token fields scanned by the keyword stage: name, brand, category, tags. -/
def keywordTokens (p : Product) : List String :=
  normalize (p.name ++ " " ++ p.brand ++ " " ++ p.category ++ " " ++ String.intercalate " " p.tags)

/-- Number of query tokens that occur among the keyword tokens of a product. -/
def overlapCount (toks : List String) (p : Product) : Nat :=
  (toks.filter fun t => (keywordTokens p).contains t).length

/-- Modelled from the spec: keyword stage of the missing Matcher - overlap count normalized
by query length, keeping positive scores only. -/
def keywordStage (ps : List Product) (toks : List String) : List MatchResult :=
  sortRanked rankBefore
    ((ps.filter fun p => decide (0 < overlapCount toks p)).map
      fun p => { product := p,
                 score := { num := overlapCount toks p, den := toks.length },
                 matchedVia := MatchStage.keyword })

/-- Modelled from the spec: category stage of the missing Matcher - when a query token
equals a category name, all products of that category, uniformly scored. -/
def categoryStage (ps : List Product) (toks : List String) : List MatchResult :=
  sortRanked rankBefore
    ((ps.filter fun p => toks.contains (lowerString p.category)).map
      fun p => { product := p, score := { num := 1, den := 2 }, matchedVia := MatchStage.category })

/-- Modelled from the spec: default stage of the missing Matcher - the first topN products
by ascending id with score zero. -/
def defaultStage (ps : List Product) (topN : Nat) : List MatchResult :=
  ((sortRanked idBefore ps).take topN).map
    fun p => { product := p, score := Frac.zero, matchedVia := MatchStage.default }

/-- Modelled from the spec: the missing Matcher.match, a strict fallback chain of the
semantic, keyword, category and default stages, each attempted only when every earlier
stage was empty, truncated to topN. Named matchQuery because match is a reserved word. -/
def matchQuery (ps : List Product) (rawText : String) (topN : Nat) : List MatchResult :=
  let toks := normalize rawText
  let s1 := semanticStage ps toks
  if !s1.isEmpty then s1.take topN
  else
    let s2 := keywordStage ps toks
    if !s2.isEmpty then s2.take topN
    else
      let s3 := categoryStage ps toks
      if !s3.isEmpty then s3.take topN
      else if ps.isEmpty then [] else defaultStage ps topN

/-- Intent set of the data model (spec section 3). -/
inductive SpecIntent where
  | greeting
  | general_conversation
  | text_recommendation
  | image_description
  | unknown
deriving DecidableEq

/-- Modelled from the spec: the conversational patterns of rule 3 of the missing backend
IntentClassifier. -/
def conversationalPatterns : List String :=
  ["your name", "who are you", "what can you do", "how are you", "hello", "good morning"]

/-- Modelled from the spec: rule 1 trigger of the missing backend IntentClassifier,
including the indefinite article variant starting with "an ". -/
def specImageRule (ql : String) : Bool :=
  containsAny imageKeywords ql || startsWithL "a ".data ql.data || startsWithL "an ".data ql.data

/-- Modelled from the spec: the missing backend IntentClassifier.classify, an ordered rule
list over the lowered raw text where the first matching rule wins and unknown is the default. -/
def specClassify (rawText : String) : SpecIntent :=
  let ql := lowerString rawText
  if specImageRule ql then SpecIntent.image_description
  else if textRecRule ql then SpecIntent.text_recommendation
  else if containsAny conversationalPatterns ql then SpecIntent.general_conversation
  else SpecIntent.unknown

/-- Modelled from the spec: the canned reply table of the missing QueryRouter, keyed by
sub-pattern, first match wins. -/
def cannedReplies : List (String × String) :=
  [("your name", "I am ShopBot, your AI shopping assistant."),
   ("who are you", "I am ShopBot, your AI shopping assistant."),
   ("what can you do", "I can recommend products, search by an image description, and chat."),
   ("how are you", "I am doing great and ready to help you shop."),
   ("hello", "Hello! How can I help you today?"),
   ("good morning", "Good morning! What are you shopping for today?")]

/-- Canned reply lookup for a conversational query, with a fixed fallback reply. -/
def cannedReply (ql : String) : String :=
  match cannedReplies.find? (fun pr => containsSub pr.1.data ql.data) with
  | some pr => pr.2
  | none => "Happy to chat! How can I help you shop today?"

/-- Default apology reply of the unknown intent. -/
def unknownReply : String :=
  "Sorry, I did not catch that. Ask me to recommend a product or describe an image."

/-- Reply reporting the match count; zero and non-zero counts are framed differently. -/
def matchCountReply (ms : List MatchResult) : String :=
  if ms.isEmpty then "Sorry, I could not find any matching products."
  else "I found " ++ toString ms.length ++ " matching product(s)."

/-- Modelled from the spec: the optional external Agent Mode response is prepended to the
composed reply of the missing QueryRouter and changes nothing else. -/
def augmentReply (ext : Option String) (reply : String) : String :=
  match ext with
  | some e => e ++ " " ++ reply
  | none => reply

/-- Result record of QueryRouter.handle (spec section 4.5). -/
structure HandleResult where
  intent : SpecIntent
  textReply : String
  matchList : List MatchResult
deriving DecidableEq

/-- Modelled from the spec: the missing QueryRouter.handle - classify, then match for the
two product intents with a reply reporting the match count, a canned reply with no matches
for conversational intents, and an apology with no matches for unknown; an external
response only augments the composed reply. -/
def handleQuery (rawText : String) (ext : Option String) (ps : List Product) (topN : Nat) :
    HandleResult :=
  match specClassify rawText with
  | SpecIntent.image_description =>
    let ms := matchQuery ps rawText topN
    { intent := SpecIntent.image_description,
      textReply := augmentReply ext (matchCountReply ms), matchList := ms }
  | SpecIntent.text_recommendation =>
    let ms := matchQuery ps rawText topN
    { intent := SpecIntent.text_recommendation,
      textReply := augmentReply ext (matchCountReply ms), matchList := ms }
  | SpecIntent.greeting =>
    { intent := SpecIntent.greeting,
      textReply := augmentReply ext (cannedReply (lowerString rawText)), matchList := [] }
  | SpecIntent.general_conversation =>
    { intent := SpecIntent.general_conversation,
      textReply := augmentReply ext (cannedReply (lowerString rawText)), matchList := [] }
  | SpecIntent.unknown =>
    { intent := SpecIntent.unknown,
      textReply := augmentReply ext unknownReply, matchList := [] }

/-- Sample product used to instantiate universally quantified theorems. -/
def sampleProduct : Product :=
  { id := 1, name := "Sports T-Shirt", description := "A comfortable blue t-shirt for sports",
    category := "clothing", brand := "Nike", price := Frac.ofNat 20, image_url := "shirt.png",
    tags := ["sports", "t-shirt", "blue"] }

/-- Component state with a whitespace-only query, used to instantiate theorems. -/
def emptyQueryState : ChatState :=
  { query := "   ", messages := [], products := [7], isLoading := false,
    showProducts := true, lastFeature := none }

/-- Component state with a pending query, used to instantiate theorems. -/
def busyChatState : ChatState :=
  { query := "hello there", messages := [{ mtype := "bot", text := "welcome" }],
    products := [3, 4], isLoading := false, showProducts := true, lastFeature := some "text" }

/-! Helper lemmas shared by the claim theorems. -/

theorem take_ne_nil_of_ne_nil {α : Type} {l : List α} {n : Nat} (hl : l ≠ []) (hn : 1 ≤ n) :
    l.take n ≠ [] := by
  cases l with
  | nil => exact absurd rfl hl
  | cons a as =>
    cases n with
    | zero => omega
    | succ m => simp [List.take]

theorem length_insertRanked {α : Type} (before : α → α → Bool) (a : α) (l : List α) :
    (insertRanked before a l).length = l.length + 1 := by
  induction l with
  | nil => rfl
  | cons b bs ih => by_cases h : before a b <;> simp [insertRanked, h, ih]

theorem length_sortRanked {α : Type} (before : α → α → Bool) (l : List α) :
    (sortRanked before l).length = l.length := by
  induction l with
  | nil => rfl
  | cons a as ih =>
    show (insertRanked before a (sortRanked before as)).length = as.length + 1
    rw [length_insertRanked, ih]

theorem sortRanked_ne_nil {α : Type} (before : α → α → Bool) {l : List α} (h : l ≠ []) :
    sortRanked before l ≠ [] := by
  intro hnil
  have hlen := length_sortRanked before l
  rw [hnil] at hlen
  exact h (List.length_eq_zero.mp hlen.symm)

theorem chainAssigns_chainEval (d : Intent) (rs : List ((String → Bool) × Intent)) (q : String) :
    ChainAssigns d rs q (chainEval d rs q) := by
  induction rs with
  | nil => exact ChainAssigns.nil q
  | cons r rs ih =>
    obtain ⟨p, i⟩ := r
    by_cases h : p q = true
    · simpa [chainEval, h] using ChainAssigns.head h
    · have h' : p q = false := by simpa using h
      simpa [chainEval, h'] using ChainAssigns.tail h' ih

theorem chainAssigns_unique {d : Intent} {rs : List ((String → Bool) × Intent)} {q : String}
    {i : Intent} (h : ChainAssigns d rs q i) : i = chainEval d rs q := by
  induction h with
  | nil => rfl
  | head hp => simp [chainEval, hp]
  | tail hp _ ih => simp [chainEval, hp, ih]

theorem classify_eq_chainEval (q : String) :
    classify q = chainEval Intent.general_conversation intentRules q := by
  by_cases h1 : imageRule (lowerString q) = true
  · simp [classify, chainEval, intentRules, h1]
  · by_cases h2 : textRecRule (lowerString q) = true <;>
      simp_all [classify, chainEval, intentRules]

theorem star_not_mem_filter (l : List Char) : '*' ∉ l.filter (fun c => c != '*') := by
  intro h
  have := (List.mem_filter.mp h).2
  simp at this

theorem star_not_mem_replaceDoubleNL {l : List Char} (h : '*' ∉ l) : '*' ∉ replaceDoubleNL l := by
  induction l using replaceDoubleNL.induct with
  | case1 rest ih =>
    simp only [replaceDoubleNL]
    intro hm
    rcases List.mem_append.mp hm with hm | hm
    · exact absurd hm (by decide)
    · exact ih (fun hx => h (List.mem_cons_of_mem _ (List.mem_cons_of_mem _ hx))) hm
  | case2 c rest hnm ih =>
    simp only [replaceDoubleNL]
    intro hm
    rcases List.mem_cons.mp hm with hm | hm
    · exact h (List.mem_cons.mpr (Or.inl hm))
    · exact ih (fun hx => h (List.mem_cons_of_mem _ hx)) hm
  | case3 => simp [replaceDoubleNL]

theorem star_not_mem_replaceSingleNL {l : List Char} (h : '*' ∉ l) : '*' ∉ replaceSingleNL l := by
  induction l using replaceSingleNL.induct with
  | case1 rest ih =>
    simp only [replaceSingleNL]
    intro hm
    rcases List.mem_append.mp hm with hm | hm
    · exact absurd hm (by decide)
    · exact ih (fun hx => h (List.mem_cons_of_mem _ hx)) hm
  | case2 c rest hnm ih =>
    simp only [replaceSingleNL]
    intro hm
    rcases List.mem_cons.mp hm with hm | hm
    · exact h (List.mem_cons.mpr (Or.inl hm))
    · exact ih (fun hx => h (List.mem_cons_of_mem _ hx)) hm
  | case3 => simp [replaceSingleNL]

/-! Claim theorems. -/

/-- C1: the intent rules run in fixed priority order with the image rule first: every raw
query whose lowercased text contains one of the image keywords is classified as
image_description and dispatched to the image search route, even when a text
recommendation trigger word is also present. -/
theorem image_keywords_take_priority (q : String)
    (h : containsAny imageKeywords (lowerString q) = true) :
    classify q = Intent.image_description ∧ route false q = Route.image := by
  have hi : imageRule (lowerString q) = true := by simp [imageRule, h]
  constructor
  · simp [classify, hi]
  · simp [route, routeOfIntent, classify, hi]

/-- Witness for C1 at a query containing both the image keyword picture and the
recommendation keyword find. -/
theorem image_keywords_take_priority_witness :
    containsAny imageKeywords (lowerString "Find a picture of shoes") = true ∧
    (classify "Find a picture of shoes" = Intent.image_description ∧
      route false "Find a picture of shoes" = Route.image) :=
  ⟨by decide, image_keywords_take_priority "Find a picture of shoes" (by decide)⟩

/-- C2: with at least one result requested, the fallback chain of the matcher returns at
least one result whenever the catalog is non-empty, and returns the empty sequence
whenever the catalog is empty. -/
theorem match_fallback_never_empty (ps : List Product) (rawText : String) (topN : Nat)
    (h : 1 ≤ topN) :
    (ps ≠ [] → matchQuery ps rawText topN ≠ []) ∧
    (ps = [] → matchQuery ps rawText topN = []) := by
  constructor
  · intro hps
    show ¬ _
    simp only [matchQuery]
    by_cases h1 : semanticStage ps (normalize rawText) = []
    · by_cases h2 : keywordStage ps (normalize rawText) = []
      · by_cases h3 : categoryStage ps (normalize rawText) = []
        · simp only [h1, h2, h3, List.isEmpty_nil, Bool.not_true, Bool.false_eq_true,
            if_false, List.isEmpty_eq_true, hps, defaultStage]
          intro hmap
          have htake : (sortRanked idBefore ps).take topN = [] := by
            exact List.map_eq_nil_iff.mp hmap
          exact take_ne_nil_of_ne_nil (sortRanked_ne_nil idBefore hps) h htake
        · have : (categoryStage ps (normalize rawText)).isEmpty = false := by
            simpa [List.isEmpty_iff] using h3
          simp only [h1, h2, this, List.isEmpty_nil, Bool.not_true, Bool.not_false,
            Bool.false_eq_true, if_false, if_true]
          exact take_ne_nil_of_ne_nil h3 h
      · have : (keywordStage ps (normalize rawText)).isEmpty = false := by
          simpa [List.isEmpty_iff] using h2
        simp only [h1, this, List.isEmpty_nil, Bool.not_true, Bool.not_false,
          Bool.false_eq_true, if_false, if_true]
        exact take_ne_nil_of_ne_nil h2 h
    · have : (semanticStage ps (normalize rawText)).isEmpty = false := by
        simpa [List.isEmpty_iff] using h1
      simp only [this, Bool.not_false, if_true]
      exact take_ne_nil_of_ne_nil h1 h
  · intro hps
    subst hps
    rfl

/-- Witness for C2 at a singleton catalog, a query sharing no vocabulary with it, and five
requested results, and separately at the empty catalog. -/
theorem match_fallback_never_empty_witness :
    1 ≤ 5 ∧
    (([sampleProduct] ≠ [] → matchQuery [sampleProduct] "zzz qqq" 5 ≠ []) ∧
      ([sampleProduct] = [] → matchQuery [sampleProduct] "zzz qqq" 5 = [])) :=
  ⟨by decide, match_fallback_never_empty [sampleProduct] "zzz qqq" 5 (by decide)⟩

/-- C3 counterexample: the query an elegant dress begins with the indefinite article an,
contains no image keyword, and is still not classified as image_description, because the
code only tests for the prefix a followed by a space. -/
theorem an_start_not_image_counterexample :
    startsWithL "an ".data (lowerString "an elegant dress").data = true ∧
    containsAny imageKeywords (lowerString "an elegant dress") = false ∧
    classify "an elegant dress" ≠ Intent.image_description := by decide

/-- C3 amended: every raw query whose lowercased text begins with the two characters a and
space is classified as image_description; the prefix an does not trigger the rule. In
particular the query A blue sports t-shirt is classified as image_description. -/
theorem a_start_triggers_image (q : String)
    (h : startsWithL "a ".data (lowerString q).data = true) :
    classify q = Intent.image_description := by
  have hi : imageRule (lowerString q) = true := by simp [imageRule, h]
  simp [classify, hi]

/-- Witness for the amended C3 at the spec example query. -/
theorem a_start_triggers_image_witness :
    startsWithL "a ".data (lowerString "A blue sports t-shirt").data = true ∧
    classify "A blue sports t-shirt" = Intent.image_description :=
  ⟨by decide, a_start_triggers_image "A blue sports t-shirt" (by decide)⟩

/-- C4 counterexample: for the query show me shoes the route taken with the agent mode
collaborator enabled differs from the route taken without it, so supplying the external
response does change the matching path. -/
theorem agent_mode_changes_route_counterexample :
    route true "show me shoes" ≠ route false "show me shoes" := by decide

/-- C4 amended: in the frontend the agent mode flag is tested before any intent rule, so
with agent mode enabled every query is posted to the dedicated agent endpoint, replacing
the classified route, and the agent endpoint is never used when agent mode is off; in the
spec-modelled backend router the external response leaves the produced matches unchanged
and only augments the composed reply. -/
theorem agent_mode_replaces_route (q : String) (ext : Option String) (ps : List Product)
    (topN : Nat) :
    route true q = Route.agent ∧ route false q ≠ Route.agent ∧
    (handleQuery q ext ps topN).matchList = (handleQuery q none ps topN).matchList := by
  refine ⟨rfl, ?_, ?_⟩
  · show ¬ _
    simp only [route, if_false, Bool.false_eq_true]
    cases h : classify q <;> simp [routeOfIntent]
  · cases h : specClassify q <;> simp [handleQuery, h]

/-- C5: every query the spec-modelled backend classifier marks as greeting or general
conversation is answered by the canned conversational reply with zero product matches. -/
theorem conversational_reply_no_matches (rawText : String) (ext : Option String)
    (ps : List Product) (topN : Nat)
    (h : specClassify rawText = SpecIntent.greeting ∨
      specClassify rawText = SpecIntent.general_conversation) :
    (handleQuery rawText ext ps topN).matchList = [] ∧
    (handleQuery rawText ext ps topN).textReply =
      augmentReply ext (cannedReply (lowerString rawText)) := by
  rcases h with h | h <;> simp [handleQuery, h]

/-- Witness for C5 at the spec example query asking for the name of the assistant. -/
theorem conversational_reply_no_matches_witness :
    (specClassify "What\x27s your name?" = SpecIntent.greeting ∨
      specClassify "What\x27s your name?" = SpecIntent.general_conversation) ∧
    ((handleQuery "What\x27s your name?" (some "external note") [sampleProduct] 3).matchList = [] ∧
      (handleQuery "What\x27s your name?" (some "external note") [sampleProduct] 3).textReply =
        augmentReply (some "external note") (cannedReply (lowerString "What\x27s your name?"))) :=
  ⟨by decide,
    conversational_reply_no_matches "What\x27s your name?" (some "external note")
      [sampleProduct] 3 (by decide)⟩

/-- C6: every raw query that triggers neither the image keywords nor the indefinite
article heuristic and whose lowercased text contains a recommendation keyword is
classified as text_recommendation and dispatched to the recommendation route. -/
theorem recommend_keywords_route_text (q : String)
    (h1 : imageRule (lowerString q) = false)
    (h2 : textRecRule (lowerString q) = true) :
    classify q = Intent.text_recommendation ∧ route false q = Route.text := by
  constructor
  · simp [classify, h1, h2]
  · simp [route, routeOfIntent, classify, h1, h2]

/-- Witness for C6 at the spec example query. -/
theorem recommend_keywords_route_text_witness :
    imageRule (lowerString "Recommend me a t-shirt for sports") = false ∧
    textRecRule (lowerString "Recommend me a t-shirt for sports") = true ∧
    (classify "Recommend me a t-shirt for sports" = Intent.text_recommendation ∧
      route false "Recommend me a t-shirt for sports" = Route.text) :=
  ⟨by decide, by decide,
    recommend_keywords_route_text "Recommend me a t-shirt for sports" (by decide) (by decide)⟩

/-- C7: a submission whose query trims to the empty string is short-circuited by the guard
of handleSubmit: no endpoint is selected, the component state is left unchanged, no
exception is raised, and the send button is disabled for such a query. -/
theorem whitespace_query_short_circuits (st : ChatState) (agentMode apiConnected : Bool)
    (o : BackendOutcome) (h : trimText st.query = "") :
    submitRoute st agentMode apiConnected = none ∧
    handleSubmit st agentMode apiConnected o = st ∧
    (∀ isLoading : Bool, sendButtonDisabled isLoading apiConnected st.query = true) := by
  have hg : submitGuardFails st apiConnected = true := by
    simp [submitGuardFails, h]
  refine ⟨?_, ?_, ?_⟩
  · simp [submitRoute, hg]
  · simp [handleSubmit, hg]
  · intro isLoading
    simp [sendButtonDisabled, h]

/-- Witness for C7 at a whitespace-only query in an otherwise idle state. -/
theorem whitespace_query_short_circuits_witness :
    trimText emptyQueryState.query = "" ∧
    (submitRoute emptyQueryState false true = none ∧
      handleSubmit emptyQueryState false true BackendOutcome.failure = emptyQueryState ∧
      (∀ isLoading : Bool, sendButtonDisabled isLoading true emptyQueryState.query = true)) :=
  ⟨by decide, whitespace_query_short_circuits emptyQueryState false true
    BackendOutcome.failure (by decide)⟩

/-- C8: intent classification is total and deterministic: for every query the ordered rule
chain assigns the intent computed by classify, and any intent the chain can assign equals
that one, so identical query text always selects the identical intent. -/
theorem classification_total_deterministic (q : String) :
    ChainAssigns Intent.general_conversation intentRules q (classify q) ∧
    (∀ i : Intent, ChainAssigns Intent.general_conversation intentRules q i →
      i = classify q) := by
  constructor
  · rw [classify_eq_chainEval]
    exact chainAssigns_chainEval _ _ _
  · intro i hi
    rw [classify_eq_chainEval]
    exact chainAssigns_unique hi

/-- Witness for C8 at the query hello, with an explicit rule chain derivation discharging
the hypothesis of the uniqueness part. -/
theorem classification_total_deterministic_witness :
    ChainAssigns Intent.general_conversation intentRules "hello" (classify "hello") ∧
    Intent.general_conversation = classify "hello" := by
  have hD : ChainAssigns Intent.general_conversation intentRules "hello"
      Intent.general_conversation := by
    unfold intentRules
    exact ChainAssigns.tail (by decide) (ChainAssigns.tail (by decide)
      (ChainAssigns.nil "hello"))
  exact ⟨(classification_total_deterministic "hello").1,
    (classification_total_deterministic "hello").2 Intent.general_conversation hD⟩

/-- C9: when the backend request of a submission fails, the catch block appends exactly
one apology bot message after the user message, the displayed products are unchanged, and
the handler terminates normally with loading cleared. -/
theorem submit_failure_atomic (st : ChatState) (agentMode apiConnected : Bool)
    (hq : trimText st.query ≠ "") (hl : st.isLoading = false) (hc : apiConnected = true) :
    (handleSubmit st agentMode apiConnected BackendOutcome.failure).products = st.products ∧
    (handleSubmit st agentMode apiConnected BackendOutcome.failure).messages =
      st.messages ++ [userMessage st.query, apologyMessage] ∧
    (handleSubmit st agentMode apiConnected BackendOutcome.failure).isLoading = false := by
  have hg : submitGuardFails st apiConnected = false := by
    simp [submitGuardFails, hl, hc, hq]
  refine ⟨?_, ?_, ?_⟩ <;> simp [handleSubmit, hg]

/-- Witness for C9 at a concrete pending state with agent mode on. -/
theorem submit_failure_atomic_witness :
    trimText busyChatState.query ≠ "" ∧ busyChatState.isLoading = false ∧
    ((handleSubmit busyChatState true true BackendOutcome.failure).products =
        busyChatState.products ∧
      (handleSubmit busyChatState true true BackendOutcome.failure).messages =
        busyChatState.messages ++ [userMessage busyChatState.query, apologyMessage] ∧
      (handleSubmit busyChatState true true BackendOutcome.failure).isLoading = false) :=
  ⟨by decide, by decide,
    submit_failure_atomic busyChatState true true (by decide) (by decide) rfl⟩

/-- C10: formatGeminiResponse is a pure total function: a null, undefined or empty input
returns the empty string, and for every string input the output contains no star
character, since each leading star bullet is rewritten and every remaining star removed. -/
theorem formatGeminiResponse_total_clean :
    formatGeminiResponse none = "" ∧
    formatGeminiResponse (some "") = "" ∧
    ∀ s : String, '*' ∉ (formatGeminiResponse (some s)).data := by
  refine ⟨rfl, rfl, ?_⟩
  intro s
  by_cases h : s == ""
  · simp [formatGeminiResponse, h]
  · simp only [formatGeminiResponse, h, Bool.false_eq_true, if_false]
    exact star_not_mem_replaceSingleNL (star_not_mem_replaceDoubleNL (star_not_mem_filter _))

/-- Witness for C10 evaluating the no-star property at a concrete markdown response. -/
theorem formatGeminiResponse_total_clean_witness :
    '*' ∉ (formatGeminiResponse (some "* bold **text**\n\nnext *line*")).data :=
  formatGeminiResponse_total_clean.2.2 "* bold **text**\n\nnext *line*"

end EcommerceAgent
